import Mathlib

/-!
Verification of the automated trading engine of this repository.

Shallow embedding conventions:
- Python `Decimal` values (monetary amounts, prices, rates) are modelled as
  exact rationals `ℚ`; `Decimal` arithmetic on the magnitudes used by the
  engine is exact, and `quantize(Decimal('1'), rounding=ROUND_DOWN)` followed
  by `int(...)` is truncation toward zero, modelled by `decTruncToInt`.
- Network calls (balance, price, order status, order placement) are modelled
  as oracle parameters: a function from the attempt index to the value the
  broker returns on that call.  Python exceptions raised by a call are
  modelled with `Except String`.
- Wall-clock time is a parameter (seconds of day / holding days), since the
  source reads `datetime.now()`.
-/

/-- `int(x.quantize(Decimal('1'), rounding=ROUND_DOWN))`: truncation of a
rational toward zero. -/
def decTruncToInt (x : ℚ) : ℤ :=
  if 0 ≤ x then ⌊x⌋ else ⌈x⌉

/-- `OrderManager.COMMISSION_RATE = Decimal('0.00018')`. -/
def COMMISSION_RATE : ℚ := 0.00018

/-- `OrderManager._calculate_buy_quantity(available_amount, price)`:
`order_amount = available_amount / (1 + COMMISSION_RATE)`, then
`int((order_amount / price).quantize(Decimal('1'), rounding=ROUND_DOWN))`. -/
def calculate_buy_quantity (available_amount price : ℚ) : ℤ :=
  decTruncToInt ((available_amount / (1 + COMMISSION_RATE)) / price)

/-- Tick-size table applied to the raw target price in
`OrderManager._calculate_sell_price` (Korean exchange tick grid). -/
def tick_size (target_price : ℚ) : ℤ :=
  if target_price < 1000 then 1
  else if target_price < 5000 then 5
  else if target_price < 10000 then 10
  else if target_price < 50000 then 50
  else if target_price < 100000 then 100
  else if target_price < 500000 then 500
  else 1000

/-- `OrderManager._calculate_sell_price(buy_price, profit_rate)`:
`target_price = buy_price * (1 + profit_rate)`, tick size chosen from
`target_price`, then
`int((target_price / tick_size).quantize(Decimal('1'), ROUND_DOWN) * tick_size)`. -/
def calculate_sell_price (buy_price profit_rate : ℚ) : ℤ :=
  decTruncToInt (buy_price * (1 + profit_rate) / (tick_size (buy_price * (1 + profit_rate)) : ℚ))
    * tick_size (buy_price * (1 + profit_rate))

/-- Sell order style: `'market'` / `'limit'` strings of the source. -/
inductive SellType where
  | market
  | limit
deriving DecidableEq

/-- Result dict of `PositionManager.should_sell_by_holding_period`. -/
structure SellDecision where
  should_sell : Bool
  sell_type : Option SellType
  reason : String
  target_price : Option ℚ
deriving DecidableEq

/-- One holding reported by `KiwoomAPIClient.get_positions` (the monetary
fields not read by the decision logic — eval_amount, profit_loss,
profit_rate — are omitted). -/
structure Position where
  stock_code : String
  stock_name : String
  quantity : ℕ
  avg_price : ℚ
  current_price : ℚ
deriving DecidableEq

/-- Result dict of `PositionManager.get_sell_strategy` when it asks for an
order; its `action` key is always `'place_order'` and is left implicit. -/
structure SellStrategy where
  sell_type : SellType
  target_price : Option ℚ
  profit_rate : Option ℚ
  reason : String
deriving DecidableEq

/-- `PositionManager.calculate_holding_days`: `(now - buy_date).days`, with
the two datetimes as seconds; Python `timedelta.days` floors. -/
def calculate_holding_days (now_sec buy_date_sec : ℤ) : ℤ :=
  Int.fdiv (now_sec - buy_date_sec) 86400

/-- `PositionManager.should_sell_by_holding_period(buy_date, current_price,
avg_price)`, with the time-dependent `calculate_holding_days(buy_date)` value
passed in as `holding_days`.  Formatted-number fragments of the 0~3% reason
string are dropped. -/
def should_sell_by_holding_period (holding_days : ℤ) (current_price avg_price : ℚ) :
    SellDecision :=
  let price_r := (current_price - avg_price) / avg_price
  if 10 ≤ holding_days then
    { should_sell := true, sell_type := some .market,
      reason := "10일 경과 (보유 " ++ toString holding_days ++ "일)",
      target_price := none }
  else if 5 ≤ holding_days then
    if 0 ≤ price_r ∧ price_r < 0.03 then
      { should_sell := true, sell_type := some .market,
        reason := "5일 경과, 현재가 0~3% 구간", target_price := none }
    else if price_r < 0 then
      { should_sell := true, sell_type := some .limit,
        reason := "5일 경과, 손절가 설정 (매수가 -1%)",
        target_price := some (avg_price * 0.99) }
    else
      { should_sell := false, sell_type := none, reason := "보유 유지",
        target_price := none }
  else
    { should_sell := false, sell_type := none, reason := "보유 유지",
      target_price := none }

/-- `PositionManager.get_sell_strategy(position, buy_date, has_sell_order)`;
the unreachable limit-without-target path raises in Python and is caught by
the function's own except branch, which returns `None`. -/
def get_sell_strategy (position : Position) (holding_days : ℤ)
    (has_sell_order : Bool) : Option SellStrategy :=
  if !has_sell_order then
    some { sell_type := .limit, target_price := some (position.avg_price * 1.03),
           profit_rate := some 0.03, reason := "기본 익절가 설정 (매수가 +3%)" }
  else
    let hs := should_sell_by_holding_period holding_days position.current_price
      position.avg_price
    if hs.should_sell then
      match hs.sell_type with
      | some .market =>
          some { sell_type := .market, target_price := none, profit_rate := none,
                 reason := hs.reason }
      | some .limit =>
          match hs.target_price with
          | some tp =>
              some { sell_type := .limit, target_price := some tp,
                     profit_rate := some ((tp - position.avg_price) / position.avg_price),
                     reason := hs.reason }
          | none => none
      | none => none
    else none

/-- Concrete position used to instantiate the sell-strategy theorems. -/
def c6pos : Position :=
  { stock_code := "005930", stock_name := "삼성전자", quantity := 10,
    avg_price := 100, current_price := 101 }

/-- `is_trading_hours(allow_buy)` from `market_schedule.py`: requires a
trading day, then 09:00–15:20 for buys and 09:00–15:30 for sells; the current
KST time is passed as seconds of the day, the holiday/weekend calendar as the
`is_trading_day` flag. -/
def is_trading_hours (allow_buy : Bool) (is_trading_day : Bool) (now_sec : ℕ) : Bool :=
  if !is_trading_day then false
  else if allow_buy then
    decide (9 * 3600 ≤ now_sec) && decide (now_sec ≤ 15 * 3600 + 20 * 60)
  else
    decide (9 * 3600 ≤ now_sec) && decide (now_sec ≤ 15 * 3600 + 30 * 60)

/-- `TradingStrategy._is_today_disclosure`: the disclosure date string equals
today's KST date string. -/
def is_today_disclosure (disclosure_date today : String) : Bool :=
  disclosure_date == today

/-- `TradingStrategy.MIN_SCORE`. -/
def MIN_SCORE : ℤ := 8

/-- `score = analysis_result.recommendation_score if analysis_result else 0`. -/
def score_of (analysis_result : Option ℤ) : ℤ :=
  analysis_result.getD 0

/-- Result dict of `TradingStrategy.should_buy`. -/
structure BuyDecision where
  should_buy : Bool
  reason : String
  score : ℤ
deriving DecidableEq

/-- `TradingStrategy.should_buy(contract_data, analysis_result)`: five gates
in order; `market_open` models `is_market_open()`, `is_trading_day`/`now_sec`
feed `is_trading_hours(allow_buy=True)`, `current_position` models
`position_mgr.get_current_position()`. -/
def should_buy (market_open : Bool) (is_trading_day : Bool) (now_sec : ℕ)
    (disclosure_date today : String) (analysis_result : Option ℤ)
    (current_position : Option Position) : BuyDecision :=
  if !market_open then
    { should_buy := false, reason := "시장 휴장일", score := 0 }
  else if !(is_trading_hours true is_trading_day now_sec) then
    { should_buy := false, reason := "거래 시간 외 (매수는 09:00~15:20만 가능)",
      score := 0 }
  else if !(is_today_disclosure disclosure_date today) then
    { should_buy := false,
      reason := "오늘 공시 아님 (접수일: " ++ disclosure_date ++ ")", score := 0 }
  else
    let score := score_of analysis_result
    if score < MIN_SCORE then
      { should_buy := false,
        reason := "투자 점수 부족 (" ++ toString score ++ "점 < "
          ++ toString MIN_SCORE ++ "점)", score := score }
    else
      match current_position with
      | some pos =>
          { should_buy := false,
            reason := "이미 보유 중인 종목 있음 (" ++ pos.stock_name ++ ")",
            score := score }
      | none =>
          { should_buy := true, reason := "모든 매수 조건 충족", score := score }

/-- One row of the order/execution listing consulted by
`OrderManager.check_order_execution` (`kiwoom.get_order_status`). -/
structure OrderStatusItem where
  executed_quantity : ℕ
  order_quantity : ℕ
  executed_price : ℚ
deriving DecidableEq

/-- Result dict of `OrderManager.check_order_execution`. -/
structure ExecutionResult where
  executed : Bool
  executed_quantity : ℕ
  executed_price : ℚ
  executed_amount : ℚ
deriving DecidableEq

/-- An attempt on which the loop keeps polling: the status listing is empty
(`not orders or len(orders) == 0`; a `None` reply is the same as `[]`) or its
first row shows zero executed quantity. -/
def sees_zero_fill (orders : List OrderStatusItem) : Bool :=
  match orders with
  | [] => true
  | o :: _ => o.executed_quantity == 0

/-- The `for attempt in range(max_retries)` loop of
`OrderManager.check_order_execution`; `orders_at` is the broker's reply to
the status query on each attempt, the fuel counts the remaining attempts. -/
def check_order_execution_go (orders_at : ℕ → List OrderStatusItem) :
    ℕ → ℕ → Option ExecutionResult
  | 0, _ => none
  | fuel + 1, attempt =>
    match orders_at attempt with
    | [] => check_order_execution_go orders_at fuel (attempt + 1)
    | o :: _ =>
      if 0 < o.executed_quantity then
        if o.executed_quantity = o.order_quantity then
          some { executed := true, executed_quantity := o.executed_quantity,
                 executed_price := o.executed_price,
                 executed_amount := o.executed_price * (o.executed_quantity : ℚ) }
        else
          some { executed := false, executed_quantity := o.executed_quantity,
                 executed_price := o.executed_price,
                 executed_amount := o.executed_price * (o.executed_quantity : ℚ) }
      else
        check_order_execution_go orders_at fuel (attempt + 1)

/-- `OrderManager.check_order_execution(order_number, stock_code,
max_retries)`; `order_number` and `stock_code` only parameterize the status
query, which is abstracted into the `orders_at` oracle. -/
def check_order_execution (order_number stock_code : String)
    (orders_at : ℕ → List OrderStatusItem) (max_retries : ℕ) :
    Option ExecutionResult :=
  check_order_execution_go orders_at max_retries 0

/-- Concrete status oracle: nothing on the first attempt, a partial fill
(3 of 5 at price 100) on the second. -/
def c5orders : ℕ → List OrderStatusItem := fun n =>
  if n = 1 then [{ executed_quantity := 3, order_quantity := 5, executed_price := 100 }]
  else []

/-- What one `self.session.request` call can come back with inside
`KiwoomAPIClient._request_with_retry`: an HTTP response with a status code,
a `requests.exceptions.Timeout`, or another `requests.exceptions.RequestException`. -/
inductive HttpOutcome where
  | response (status : ℕ)
  | timeout
  | transportError
deriving DecidableEq

/-- What `_request_with_retry` can raise: the re-raised timeout, the
re-raised transport exception, or the final max-retries `Exception`. -/
inductive RequestError where
  | timeout
  | transportError
  | maxRetriesExceeded
deriving DecidableEq

/-- `backoff_delays = [0.5, 1.0, 2.0]` (seconds). -/
def backoff_delays : List ℚ := [0.5, 1.0, 2.0]

/-- An attempt outcome that triggers a retry: a 5xx response, a timeout, or
a transport error. -/
def retryable_outcome : HttpOutcome → Bool
  | .response s => decide (500 ≤ s)
  | .timeout => true
  | .transportError => true

/-- The error raised when the last attempt still fails. -/
def error_of_outcome : HttpOutcome → RequestError
  | .response _ => .maxRetriesExceeded
  | .timeout => .timeout
  | .transportError => .transportError

/-- The `for attempt in range(max_retries)` loop of `_request_with_retry`
(`max_retries = 3`); `outcome_at` is the outcome of the request made on each
attempt, the fuel counts the remaining attempts.  The result carries the
returned status or raised error together with the list of `time.sleep`
delays performed (`attempt < max_retries - 1` guards each sleep). -/
def request_go (outcome_at : ℕ → HttpOutcome) :
    ℕ → ℕ → Except RequestError ℕ × List ℚ
  | 0, _ => (Except.error .maxRetriesExceeded, [])
  | fuel + 1, attempt =>
    match outcome_at attempt with
    | .response s =>
      if s < 500 then (Except.ok s, [])
      else if attempt < 2 then
        ((request_go outcome_at fuel (attempt + 1)).1,
          backoff_delays.getD attempt 0 :: (request_go outcome_at fuel (attempt + 1)).2)
      else (Except.error .maxRetriesExceeded, [])
    | .timeout =>
      if attempt < 2 then
        ((request_go outcome_at fuel (attempt + 1)).1,
          backoff_delays.getD attempt 0 :: (request_go outcome_at fuel (attempt + 1)).2)
      else (Except.error .timeout, [])
    | .transportError =>
      if attempt < 2 then
        ((request_go outcome_at fuel (attempt + 1)).1,
          backoff_delays.getD attempt 0 :: (request_go outcome_at fuel (attempt + 1)).2)
      else (Except.error .transportError, [])

/-- `KiwoomAPIClient._request_with_retry(method, url, ...)`: the three-attempt
loop started at attempt 0. -/
def request_with_retry (outcome_at : ℕ → HttpOutcome) :
    Except RequestError ℕ × List ℚ :=
  request_go outcome_at 3 0

/-- Concrete outcome oracle: a timeout on the first attempt, then 200 OK. -/
def c7outcomes : ℕ → HttpOutcome := fun n =>
  if n = 0 then .timeout else .response 200

/-- The `order_type` strings accepted by `KiwoomAPIClient.place_order`; the
source's membership check on this list is made total by the enumeration. -/
inductive OrderType where
  | buy_market
  | buy_limit
  | sell_market
  | sell_limit
deriving DecidableEq

/-- `order_type in ['buy_limit', 'sell_limit']`. -/
def is_limit_order : OrderType → Bool
  | .buy_limit => true
  | .sell_limit => true
  | .buy_market => false
  | .sell_market => false

/-- Python falsiness of the optional `price` argument (`not price`): absent,
or equal to `Decimal(0)`. -/
def price_falsy : Option ℚ → Bool
  | none => true
  | some p => p == 0

/-- `not stock_code or len(stock_code) != 6 or not stock_code.isdigit()`
negated (ASCII digits stand in for Python's unicode `isdigit`). -/
def valid_stock_code (stock_code : String) : Bool :=
  stock_code.length == 6 && stock_code.toList.all Char.isDigit

/-- The dispatched order request of `KiwoomAPIClient.place_order`: the TR id
(`kt10000` buy / `kt10001` sell) and the JSON body. -/
structure OrderRequest where
  api_id : String
  dmst_stex_tp : String
  stk_cd : String
  ord_qty : String
  ord_uv : String
  trde_tp : String
  cond_uv : String
deriving DecidableEq

/-- The validation and request-construction phase of
`KiwoomAPIClient.place_order(stock_code, order_type, quantity, price)`:
`none` means the order was rejected before dispatch, `some req` means the
request `req` was dispatched to the broker. -/
def place_order (stock_code : String) (order_type : OrderType) (quantity : ℤ)
    (price : Option ℚ) : Option OrderRequest :=
  if !(valid_stock_code stock_code) then none
  else if quantity ≤ 0 then none
  else if is_limit_order order_type && price_falsy price then none
  else
    some { api_id := if order_type = .buy_market ∨ order_type = .buy_limit
             then "kt10000" else "kt10001",
           dmst_stex_tp := "KRX",
           stk_cd := stock_code,
           ord_qty := toString quantity,
           ord_uv := if order_type = .buy_market ∨ order_type = .sell_market then ""
             else if price_falsy price then ""
             else match price with
               | some p => toString (decTruncToInt p)
               | none => "",
           trde_tp := if order_type = .buy_market ∨ order_type = .sell_market
             then "3" else "0",
           cond_uv := "" }

/-- The core of the structured error dicts wired through the orchestration
(the cause-hypothesis and remediation lists are omitted). -/
structure ErrorInfo where
  step : String
  error_type : String
  error_message : String
deriving DecidableEq

/-- What `OrderManager.place_market_buy_order` hands back inside its result
dict: an `error_info` entry, or the placed order's data. -/
inductive BuyOrderResult where
  | err (e : ErrorInfo)
  | placed (order_number : String) (quantity : ℕ)
deriving DecidableEq

/-- Result dict of `OrderManager.place_limit_sell_order`. -/
structure SellOrderPlaced where
  order_number : String
  sell_price : ℚ
deriving DecidableEq

/-- Result of `TradingStrategy.execute_buy_strategy`: a success record or a
structured failure carrying `error_info`. -/
inductive BuyOutcome where
  | success (order_number : String) (quantity : ℕ) (executed_price : ℚ)
      (executed_amount : ℚ) (sell_order_number : Option String)
  | failure (e : ErrorInfo)
deriving DecidableEq

/-- Fallback `error_info` when `place_market_buy_order` returns a falsy
result without error details. -/
def unknown_buy_error : ErrorInfo :=
  { step := "매수 주문", error_type := "알 수 없는 오류",
    error_message := "매수 주문이 실패했지만 구체적인 오류 정보가 제공되지 않았습니다" }

/-- `error_info` returned when the 5 × 2s confirmation window closes with no
confirmed fill. -/
def confirm_timeout_error : ErrorInfo :=
  { step := "매수 체결 확인", error_type := "체결 확인 타임아웃",
    error_message := "매수 주문은 성공했지만 10초 내에 체결을 확인할 수 없었습니다" }

/-- `error_info` built by the top-level except branch of
`execute_buy_strategy` from a caught exception. -/
def exception_error_info (msg : String) : ErrorInfo :=
  { step := "매수 전략 실행", error_type := "Exception", error_message := msg }

/-- The `for attempt in range(5)` confirmation loop of
`execute_buy_strategy`: poll, and on a confirmed full fill place the +3%
take-profit sell (best effort) and return the success record. -/
def buy_confirm_loop (check_exec : ℕ → Except String (Option ExecutionResult))
    (place_sell : Except String (Option SellOrderPlaced)) (order_number : String) :
    ℕ → ℕ → Except String BuyOutcome
  | 0, _ => Except.ok (.failure confirm_timeout_error)
  | fuel + 1, attempt =>
    match check_exec attempt with
    | Except.error e => Except.error e
    | Except.ok (some e) =>
      if e.executed then
        match place_sell with
        | Except.error e2 => Except.error e2
        | Except.ok sell =>
          Except.ok (.success order_number e.executed_quantity e.executed_price
            e.executed_amount (sell.map (fun s => s.order_number)))
      else
        buy_confirm_loop check_exec place_sell order_number fuel (attempt + 1)
    | Except.ok none =>
      buy_confirm_loop check_exec place_sell order_number fuel (attempt + 1)

/-- The try-block of `TradingStrategy.execute_buy_strategy(stock_code,
stock_name)`; each broker interaction is an oracle returning its value or a
raised exception (`Except.error`). -/
def execute_buy_body (place_buy : Except String (Option BuyOrderResult))
    (check_exec : ℕ → Except String (Option ExecutionResult))
    (place_sell : Except String (Option SellOrderPlaced)) :
    Except String BuyOutcome :=
  match place_buy with
  | Except.error e => Except.error e
  | Except.ok (some (.err e)) => Except.ok (.failure e)
  | Except.ok none => Except.ok (.failure unknown_buy_error)
  | Except.ok (some (.placed order_number _qty)) =>
    buy_confirm_loop check_exec place_sell order_number 5 0

/-- `TradingStrategy.execute_buy_strategy`: the try-block wrapped in the
catch-all except branch, which converts any exception into a structured
failure record. -/
def execute_buy_strategy (place_buy : Except String (Option BuyOrderResult))
    (check_exec : ℕ → Except String (Option ExecutionResult))
    (place_sell : Except String (Option SellOrderPlaced)) :
    Except String BuyOutcome :=
  match execute_buy_body place_buy check_exec place_sell with
  | Except.error msg => Except.ok (.failure (exception_error_info msg))
  | Except.ok r => Except.ok r

/-- Result dict of `TradingStrategy.execute_position_management`:
`sell_executed` after a confirmed market sell, `order_placed` otherwise
(the limit case carries the order's sell price). -/
inductive SellOutcome where
  | sell_executed (stock_code stock_name : String) (quantity : ℕ)
      (executed_price : ℚ) (profit_rate : ℚ) (reason : String)
  | order_placed (stock_code stock_name : String) (quantity : ℕ)
      (sell_price : Option ℚ) (reason : String)
deriving DecidableEq

/-- The try-block of `TradingStrategy.execute_position_management(buy_date)`:
query the position, check for a pending sell order, derive the strategy via
`get_sell_strategy`, and place the market or limit sell it calls for. -/
def execute_position_body (get_position : Except String (Option Position))
    (has_pending : Except String Bool) (holding_days : ℤ)
    (place_market_sell : Except String (Option String))
    (check_exec : Except String (Option ExecutionResult))
    (place_limit_sell : ℚ → Option ℚ → Except String (Option SellOrderPlaced)) :
    Except String (Option SellOutcome) :=
  match get_position with
  | Except.error e => Except.error e
  | Except.ok none => Except.ok none
  | Except.ok (some pos) =>
    match has_pending with
    | Except.error e => Except.error e
    | Except.ok has_sell_order =>
      match get_sell_strategy pos holding_days has_sell_order with
      | none => Except.ok none
      | some strat =>
        match strat.sell_type with
        | .market =>
          match place_market_sell with
          | Except.error e => Except.error e
          | Except.ok none => Except.ok none
          | Except.ok (some _order_number) =>
            match check_exec with
            | Except.error e => Except.error e
            | Except.ok (some e) =>
              if e.executed then
                Except.ok (some (.sell_executed pos.stock_code pos.stock_name
                  pos.quantity e.executed_price
                  ((e.executed_price - pos.avg_price) / pos.avg_price) strat.reason))
              else
                Except.ok (some (.order_placed pos.stock_code pos.stock_name
                  pos.quantity none strat.reason))
            | Except.ok none =>
              Except.ok (some (.order_placed pos.stock_code pos.stock_name
                pos.quantity none strat.reason))
        | .limit =>
          match place_limit_sell pos.avg_price strat.profit_rate with
          | Except.error e => Except.error e
          | Except.ok none => Except.ok none
          | Except.ok (some sr) =>
            Except.ok (some (.order_placed pos.stock_code pos.stock_name
              pos.quantity (some sr.sell_price) strat.reason))

/-- `TradingStrategy.execute_position_management`: the try-block wrapped in
the catch-all except branch, which returns `None` on any exception. -/
def execute_position_management (get_position : Except String (Option Position))
    (has_pending : Except String Bool) (holding_days : ℤ)
    (place_market_sell : Except String (Option String))
    (check_exec : Except String (Option ExecutionResult))
    (place_limit_sell : ℚ → Option ℚ → Except String (Option SellOrderPlaced)) :
    Except String (Option SellOutcome) :=
  match execute_position_body get_position has_pending holding_days
    place_market_sell check_exec place_limit_sell with
  | Except.error _ => Except.ok none
  | Except.ok r => Except.ok r

/-- The method table entry `KiwoomAPIClient.has_pending_orders`: the class
defines `get_balance`, `get_positions`, `get_current_price`, `place_order`
and `get_order_status`, but no `has_pending_orders`, so the attribute lookup
yields nothing. -/
def kiwoom_client_has_pending_orders : Option (String → Bool) := none

/-- `OrderManager.has_pending_orders(stock_code)`: delegates to
`self.kiwoom.has_pending_orders`; the `AttributeError` from the missing
method is caught by the except branch, which returns `False`. -/
def has_pending_orders (stock_code : String) : Bool :=
  match kiwoom_client_has_pending_orders with
  | some f => f stock_code
  | none => false

lemma tick_size_pos (t : ℚ) : 0 < tick_size t := by
  unfold tick_size
  split_ifs <;> norm_num

lemma decTruncToInt_of_nonneg {x : ℚ} (h : 0 ≤ x) : decTruncToInt x = ⌊x⌋ := by
  unfold decTruncToInt
  exact if_pos h

/-- C1: for every `available_amount ≥ 0` and `price > 0`,
`_calculate_buy_quantity` returns the greatest integer `q` with
`q * price * (1 + COMMISSION_RATE) ≤ available_amount`; in particular it
returns 10 for 100,000 at price 9,900. -/
theorem calculate_buy_quantity_spec (a p : ℚ) (ha : 0 ≤ a) (hp : 0 < p) :
    ((calculate_buy_quantity a p : ℚ) * p * (1 + COMMISSION_RATE) ≤ a) ∧
    (∀ z : ℤ, (z : ℚ) * p * (1 + COMMISSION_RATE) ≤ a → z ≤ calculate_buy_quantity a p) ∧
    calculate_buy_quantity 100000 9900 = 10 := by
  have hc : (0 : ℚ) < 1 + COMMISSION_RATE := by norm_num [COMMISSION_RATE]
  have hpc : (0 : ℚ) < p * (1 + COMMISSION_RATE) := mul_pos hp hc
  have hx0 : 0 ≤ a / (1 + COMMISSION_RATE) / p :=
    div_nonneg (div_nonneg ha hc.le) hp.le
  have hq : calculate_buy_quantity a p = ⌊a / (1 + COMMISSION_RATE) / p⌋ := by
    unfold calculate_buy_quantity
    exact decTruncToInt_of_nonneg hx0
  have hxeq : a / (1 + COMMISSION_RATE) / p = a / (p * (1 + COMMISSION_RATE)) := by
    rw [div_div, mul_comm]
  have key : ∀ z : ℤ, ((z : ℚ) * p * (1 + COMMISSION_RATE) ≤ a ↔
      (z : ℚ) ≤ a / (1 + COMMISSION_RATE) / p) := by
    intro z
    rw [hxeq, le_div_iff₀ hpc, mul_assoc]
  refine ⟨?_, ?_, ?_⟩
  · rw [hq]
    exact (key ⌊a / (1 + COMMISSION_RATE) / p⌋).mpr (Int.floor_le _)
  · intro z hz
    rw [hq]
    exact Int.le_floor.mpr ((key z).mp hz)
  · norm_num [calculate_buy_quantity, decTruncToInt, COMMISSION_RATE]

/-- Witness for C1 at available_amount = 100,000 and price = 9,900. -/
theorem calculate_buy_quantity_spec_witness :
    (0 : ℚ) ≤ 100000 ∧ (0 : ℚ) < 9900 ∧
    ((calculate_buy_quantity 100000 9900 : ℚ) * 9900 * (1 + COMMISSION_RATE) ≤ 100000) :=
  ⟨by norm_num, by norm_num,
    (calculate_buy_quantity_spec 100000 9900 (by norm_num) (by norm_num)).1⟩

/-- C2: for every `buy_price > 0` and `profit_rate ≥ 0`,
`_calculate_sell_price` returns an integer at most
`buy_price * (1 + profit_rate)` that is a multiple of the tick size
applicable to the raw target price; in particular 48,000 at rate 0.03
yields 49,400. -/
theorem calculate_sell_price_spec (b r : ℚ) (hb : 0 < b) (hr : 0 ≤ r) :
    ((calculate_sell_price b r : ℚ) ≤ b * (1 + r)) ∧
    (tick_size (b * (1 + r)) ∣ calculate_sell_price b r) ∧
    calculate_sell_price 48000 0.03 = 49400 := by
  have ht : (0 : ℚ) < b * (1 + r) := by
    have : (0 : ℚ) < 1 + r := by linarith
    exact mul_pos hb this
  have hk : (0 : ℚ) < (tick_size (b * (1 + r)) : ℚ) := by
    exact_mod_cast tick_size_pos (b * (1 + r))
  have hx0 : 0 ≤ b * (1 + r) / (tick_size (b * (1 + r)) : ℚ) :=
    div_nonneg ht.le hk.le
  refine ⟨?_, ?_, ?_⟩
  · unfold calculate_sell_price
    rw [decTruncToInt_of_nonneg hx0]
    push_cast
    calc (⌊b * (1 + r) / (tick_size (b * (1 + r)) : ℚ)⌋ : ℚ) * (tick_size (b * (1 + r)) : ℚ)
        ≤ b * (1 + r) / (tick_size (b * (1 + r)) : ℚ) * (tick_size (b * (1 + r)) : ℚ) :=
          mul_le_mul_of_nonneg_right (Int.floor_le _) hk.le
      _ = b * (1 + r) := div_mul_cancel₀ _ (ne_of_gt hk)
  · unfold calculate_sell_price
    exact dvd_mul_left _ _
  · norm_num [calculate_sell_price, decTruncToInt, tick_size]

/-- Witness for C2 at buy_price = 48,000 and profit_rate = 0.03. -/
theorem calculate_sell_price_spec_witness :
    (0 : ℚ) < 48000 ∧ (0 : ℚ) ≤ 0.03 ∧
    ((calculate_sell_price 48000 0.03 : ℚ) ≤ 48000 * (1 + 0.03)) :=
  ⟨by norm_num, by norm_num,
    (calculate_sell_price_spec 48000 0.03 (by norm_num) (by norm_num)).1⟩

/-- C3: `should_sell_by_holding_period` evaluates its rules in priority order
with the first match winning: 10 days or more forces a market sell; in the
5-to-9-day window a flat-to-small-gain ratio (0 ≤ r < 0.03) gives a market
sell and a negative ratio gives a limit sell at avg_price × 0.99; every other
case holds. -/
theorem should_sell_by_holding_period_spec (d : ℤ) (cp ap : ℚ) (_hap : 0 < ap) :
    (10 ≤ d → should_sell_by_holding_period d cp ap =
      { should_sell := true, sell_type := some .market,
        reason := "10일 경과 (보유 " ++ toString d ++ "일)", target_price := none }) ∧
    (d < 10 → 5 ≤ d → 0 ≤ (cp - ap) / ap → (cp - ap) / ap < 0.03 →
      should_sell_by_holding_period d cp ap =
      { should_sell := true, sell_type := some .market,
        reason := "5일 경과, 현재가 0~3% 구간", target_price := none }) ∧
    (d < 10 → 5 ≤ d → (cp - ap) / ap < 0 →
      should_sell_by_holding_period d cp ap =
      { should_sell := true, sell_type := some .limit,
        reason := "5일 경과, 손절가 설정 (매수가 -1%)",
        target_price := some (ap * 0.99) }) ∧
    (d < 5 → should_sell_by_holding_period d cp ap =
      { should_sell := false, sell_type := none, reason := "보유 유지",
        target_price := none }) ∧
    (5 ≤ d → d < 10 → 0.03 ≤ (cp - ap) / ap →
      should_sell_by_holding_period d cp ap =
      { should_sell := false, sell_type := none, reason := "보유 유지",
        target_price := none }) := by
  refine ⟨?_, ?_, ?_, ?_, ?_⟩
  · intro h1
    simp only [should_sell_by_holding_period]
    rw [if_pos h1]
  · intro h1 h2 h3 h4
    simp only [should_sell_by_holding_period]
    rw [if_neg (by omega), if_pos h2, if_pos ⟨h3, h4⟩]
  · intro h1 h2 h3
    simp only [should_sell_by_holding_period]
    rw [if_neg (by omega), if_pos h2, if_neg (by rintro ⟨h4, _⟩; linarith), if_pos h3]
  · intro h1
    simp only [should_sell_by_holding_period]
    rw [if_neg (by omega), if_neg (by omega)]
  · intro h1 h2 h3
    simp only [should_sell_by_holding_period]
    rw [if_neg (by omega), if_pos h1, if_neg (by rintro ⟨_, h4⟩; linarith),
      if_neg (by linarith)]

/-- Witness for C3: the four scenario rows of the spec (10 days any ratio;
7 days at +1%; 6 days at −2%; 3 days any ratio), at avg_price 100. -/
theorem should_sell_by_holding_period_spec_witness :
    (0 : ℚ) < 100 ∧
    should_sell_by_holding_period 10 150 100 =
      { should_sell := true, sell_type := some .market,
        reason := "10일 경과 (보유 10일)", target_price := none } ∧
    should_sell_by_holding_period 7 101 100 =
      { should_sell := true, sell_type := some .market,
        reason := "5일 경과, 현재가 0~3% 구간", target_price := none } ∧
    should_sell_by_holding_period 6 98 100 =
      { should_sell := true, sell_type := some .limit,
        reason := "5일 경과, 손절가 설정 (매수가 -1%)",
        target_price := some (100 * 0.99) } ∧
    should_sell_by_holding_period 3 150 100 =
      { should_sell := false, sell_type := none, reason := "보유 유지",
        target_price := none } := by
  refine ⟨by norm_num, ?_, ?_, ?_, ?_⟩
  · rw [(should_sell_by_holding_period_spec 10 150 100 (by norm_num)).1 (by norm_num)]
    rfl
  · rw [(should_sell_by_holding_period_spec 7 101 100 (by norm_num)).2.1
      (by norm_num) (by norm_num) (by norm_num) (by norm_num)]
  · rw [(should_sell_by_holding_period_spec 6 98 100 (by norm_num)).2.2.1
      (by norm_num) (by norm_num) (by norm_num)]
  · rw [(should_sell_by_holding_period_spec 3 150 100 (by norm_num)).2.2.2.1
      (by norm_num)]

/-- C6: `get_sell_strategy` returns the bootstrap take-profit limit at
avg_price × 1.03 with profit rate 0.03 whenever no pending sell order exists,
regardless of holding period or price; with a pending order it returns
exactly what `should_sell_by_holding_period` dictates. -/
theorem get_sell_strategy_spec (pos : Position) (d : ℤ) (_hap : 0 < pos.avg_price) :
    (get_sell_strategy pos d false =
      some { sell_type := .limit, target_price := some (pos.avg_price * 1.03),
             profit_rate := some 0.03, reason := "기본 익절가 설정 (매수가 +3%)" }) ∧
    ((should_sell_by_holding_period d pos.current_price pos.avg_price).should_sell = false →
      get_sell_strategy pos d true = none) ∧
    (∀ rs tp, should_sell_by_holding_period d pos.current_price pos.avg_price =
        { should_sell := true, sell_type := some .market, reason := rs,
          target_price := tp } →
      get_sell_strategy pos d true =
        some { sell_type := .market, target_price := none, profit_rate := none,
               reason := rs }) ∧
    (∀ rs tp, should_sell_by_holding_period d pos.current_price pos.avg_price =
        { should_sell := true, sell_type := some .limit, reason := rs,
          target_price := some tp } →
      get_sell_strategy pos d true =
        some { sell_type := .limit, target_price := some tp,
               profit_rate := some ((tp - pos.avg_price) / pos.avg_price),
               reason := rs }) := by
  refine ⟨rfl, ?_, ?_, ?_⟩
  · intro h
    simp [get_sell_strategy, h]
  · intro rs tp h
    simp [get_sell_strategy, h]
  · intro rs tp h
    simp [get_sell_strategy, h]

/-- Witness for C6: the bootstrap branch at a concrete position. -/
theorem get_sell_strategy_spec_witness :
    (0 : ℚ) < c6pos.avg_price ∧
    get_sell_strategy c6pos 1 false =
      some { sell_type := .limit, target_price := some (c6pos.avg_price * 1.03),
             profit_rate := some 0.03, reason := "기본 익절가 설정 (매수가 +3%)" } :=
  ⟨by norm_num [c6pos], (get_sell_strategy_spec c6pos 1 (by norm_num [c6pos])).1⟩

/-- C4 counterexample: with the market open, the time inside the buy window,
a today-dated disclosure, score 7 and no position, the only failing gate is
the score gate — yet the returned decision carries score 7, not the zero
score the claim asserts for every failing gate. -/
theorem should_buy_zero_score_counterexample :
    (should_buy true true 36000 "20251010" "20251010" (some 7) none).should_buy = false ∧
    (should_buy true true 36000 "20251010" "20251010" (some 7) none).score ≠ 0 := by
  refine ⟨rfl, ?_⟩
  decide

/-- C4 amended: the five gates are evaluated in order and the first failing
gate short-circuits with `should_buy = false` and that gate's reason; the
market-closed, out-of-window and stale-disclosure gates return score 0, while
the low-score and position-held gates return the evaluated score. -/
theorem should_buy_gates_amended (mo itd : Bool) (now : ℕ) (d t : String)
    (ar : Option ℤ) (cp : Option Position) :
    (mo = false → should_buy mo itd now d t ar cp =
      { should_buy := false, reason := "시장 휴장일", score := 0 }) ∧
    (mo = true → is_trading_hours true itd now = false →
      should_buy mo itd now d t ar cp =
      { should_buy := false, reason := "거래 시간 외 (매수는 09:00~15:20만 가능)",
        score := 0 }) ∧
    (mo = true → is_trading_hours true itd now = true →
      is_today_disclosure d t = false →
      should_buy mo itd now d t ar cp =
      { should_buy := false, reason := "오늘 공시 아님 (접수일: " ++ d ++ ")",
        score := 0 }) ∧
    (mo = true → is_trading_hours true itd now = true →
      is_today_disclosure d t = true → score_of ar < MIN_SCORE →
      should_buy mo itd now d t ar cp =
      { should_buy := false,
        reason := "투자 점수 부족 (" ++ toString (score_of ar) ++ "점 < "
          ++ toString MIN_SCORE ++ "점)", score := score_of ar }) ∧
    (mo = true → is_trading_hours true itd now = true →
      is_today_disclosure d t = true → MIN_SCORE ≤ score_of ar →
      ∀ pos, cp = some pos →
      should_buy mo itd now d t ar cp =
      { should_buy := false,
        reason := "이미 보유 중인 종목 있음 (" ++ pos.stock_name ++ ")",
        score := score_of ar }) ∧
    (mo = true → is_trading_hours true itd now = true →
      is_today_disclosure d t = true → MIN_SCORE ≤ score_of ar → cp = none →
      should_buy mo itd now d t ar cp =
      { should_buy := true, reason := "모든 매수 조건 충족",
        score := score_of ar }) := by
  refine ⟨?_, ?_, ?_, ?_, ?_, ?_⟩
  · intro h1
    subst h1
    rfl
  · intro h1 h2
    subst h1
    simp [should_buy, h2]
  · intro h1 h2 h3
    subst h1
    simp [should_buy, h2, h3]
  · intro h1 h2 h3 h4
    subst h1
    simp [should_buy, h2, h3, h4]
  · intro h1 h2 h3 h4 pos h5
    subst h1
    subst h5
    simp [should_buy, h2, h3, not_lt.mpr h4]
  · intro h1 h2 h3 h4 h5
    subst h1
    subst h5
    simp [should_buy, h2, h3, not_lt.mpr h4]

/-- Witness for C4 amended: a yesterday-dated disclosure with score 10 is
rejected for staleness with score 0, and score 7 with every other gate
passing is rejected below the minimum score, carrying score 7. -/
theorem should_buy_gates_amended_witness :
    is_today_disclosure "20251009" "20251010" = false ∧
    score_of (some 7) < MIN_SCORE ∧
    should_buy true true 36000 "20251009" "20251010" (some 10) none =
      { should_buy := false, reason := "오늘 공시 아님 (접수일: 20251009)",
        score := 0 } ∧
    should_buy true true 36000 "20251010" "20251010" (some 7) none =
      { should_buy := false, reason := "투자 점수 부족 (7점 < 8점)", score := 7 } := by
  refine ⟨rfl, by decide, ?_, ?_⟩
  · rw [(should_buy_gates_amended true true 36000 "20251009" "20251010" (some 10)
      none).2.2.1 rfl rfl rfl]
    rfl
  · rw [(should_buy_gates_amended true true 36000 "20251010" "20251010" (some 7)
      none).2.2.2.1 rfl rfl rfl (by decide)]
    rfl

lemma check_go_cons (f : ℕ → List OrderStatusItem) (fuel attempt : ℕ)
    (o : OrderStatusItem) (rest : List OrderStatusItem) (hf : f attempt = o :: rest) :
    check_order_execution_go f (fuel + 1) attempt =
      if 0 < o.executed_quantity then
        if o.executed_quantity = o.order_quantity then
          some { executed := true, executed_quantity := o.executed_quantity,
                 executed_price := o.executed_price,
                 executed_amount := o.executed_price * (o.executed_quantity : ℚ) }
        else
          some { executed := false, executed_quantity := o.executed_quantity,
                 executed_price := o.executed_price,
                 executed_amount := o.executed_price * (o.executed_quantity : ℚ) }
      else
        check_order_execution_go f fuel (attempt + 1) := by
  simp only [check_order_execution_go, hf]

lemma check_go_agree (f g : ℕ → List OrderStatusItem) :
    ∀ fuel attempt, (∀ i, attempt ≤ i → i < attempt + fuel → f i = g i) →
    check_order_execution_go f fuel attempt = check_order_execution_go g fuel attempt := by
  intro fuel
  induction fuel with
  | zero => intro attempt _; rfl
  | succ n ih =>
    intro attempt h
    have h0 : f attempt = g attempt := h attempt le_rfl (by omega)
    have hrest : ∀ i, attempt + 1 ≤ i → i < attempt + 1 + n → f i = g i := by
      intro i hi1 hi2
      exact h i (by omega) (by omega)
    simp only [check_order_execution_go]
    rw [h0]
    cases hg : g attempt with
    | nil => exact ih (attempt + 1) hrest
    | cons o rest =>
      by_cases hq : 0 < o.executed_quantity
      · simp [hq]
      · simp only [if_neg hq]
        exact ih (attempt + 1) hrest

lemma check_go_none (f : ℕ → List OrderStatusItem) :
    ∀ fuel attempt, (∀ i, attempt ≤ i → i < attempt + fuel → sees_zero_fill (f i) = true) →
    check_order_execution_go f fuel attempt = none := by
  intro fuel
  induction fuel with
  | zero => intro attempt _; rfl
  | succ n ih =>
    intro attempt h
    have h0 : sees_zero_fill (f attempt) = true := h attempt le_rfl (by omega)
    have hrest : ∀ i, attempt + 1 ≤ i → i < attempt + 1 + n → sees_zero_fill (f i) = true := by
      intro i hi1 hi2
      exact h i (by omega) (by omega)
    cases hf : f attempt with
    | nil =>
      simp only [check_order_execution_go, hf]
      exact ih (attempt + 1) hrest
    | cons o rest =>
      rw [hf] at h0
      have hq : o.executed_quantity = 0 := by simpa [sees_zero_fill] using h0
      rw [check_go_cons f n attempt o rest hf, if_neg (by omega)]
      exact ih (attempt + 1) hrest

lemma check_go_hit (f : ℕ → List OrderStatusItem) :
    ∀ fuel attempt k, attempt ≤ k → k < attempt + fuel →
    (∀ i, attempt ≤ i → i < k → sees_zero_fill (f i) = true) →
    ∀ o rest, f k = o :: rest → 0 < o.executed_quantity →
    check_order_execution_go f fuel attempt =
      some (if o.executed_quantity = o.order_quantity then
        { executed := true, executed_quantity := o.executed_quantity,
          executed_price := o.executed_price,
          executed_amount := o.executed_price * (o.executed_quantity : ℚ) }
      else
        { executed := false, executed_quantity := o.executed_quantity,
          executed_price := o.executed_price,
          executed_amount := o.executed_price * (o.executed_quantity : ℚ) }) := by
  intro fuel
  induction fuel with
  | zero => intro attempt k h1 h2; omega
  | succ n ih =>
    intro attempt k h1 h2 hpre o rest hk hq
    by_cases hak : attempt = k
    · subst hak
      rw [check_go_cons f n attempt o rest hk, if_pos hq]
      split_ifs <;> rfl
    · have h0 : sees_zero_fill (f attempt) = true := hpre attempt le_rfl (by omega)
      cases hf : f attempt with
      | nil =>
        simp only [check_order_execution_go, hf]
        exact ih (attempt + 1) k (by omega) (by omega)
          (fun i hi1 hi2 => hpre i (by omega) hi2) o rest hk hq
      | cons o2 rest2 =>
        rw [hf] at h0
        have hq2 : o2.executed_quantity = 0 := by simpa [sees_zero_fill] using h0
        rw [check_go_cons f n attempt o2 rest2 hf, if_neg (by omega)]
        exact ih (attempt + 1) k (by omega) (by omega)
          (fun i hi1 hi2 => hpre i (by omega) hi2) o rest hk hq

/-- C5: `check_order_execution` consults the status oracle on at most
`max_retries` attempts; while each attempt sees no matching order or zero
fill it keeps retrying and exhaustion returns `none` ("not yet executed",
not an error); the first attempt that sees a nonzero fill returns
immediately — `executed = false` with the nonzero quantity and
amount = price × quantity on a partial fill, `executed = true` on a full
fill. -/
theorem check_order_execution_spec (order_number stock_code : String)
    (orders_at : ℕ → List OrderStatusItem) (max_retries : ℕ) :
    (∀ g, (∀ i, i < max_retries → orders_at i = g i) →
      check_order_execution order_number stock_code orders_at max_retries =
      check_order_execution order_number stock_code g max_retries) ∧
    ((∀ i, i < max_retries → sees_zero_fill (orders_at i) = true) →
      check_order_execution order_number stock_code orders_at max_retries = none) ∧
    (∀ k o rest, k < max_retries →
      (∀ i, i < k → sees_zero_fill (orders_at i) = true) →
      orders_at k = o :: rest → 0 < o.executed_quantity →
      o.executed_quantity < o.order_quantity →
      check_order_execution order_number stock_code orders_at max_retries =
        some { executed := false, executed_quantity := o.executed_quantity,
               executed_price := o.executed_price,
               executed_amount := o.executed_price * (o.executed_quantity : ℚ) }) ∧
    (∀ k o rest, k < max_retries →
      (∀ i, i < k → sees_zero_fill (orders_at i) = true) →
      orders_at k = o :: rest → 0 < o.executed_quantity →
      o.executed_quantity = o.order_quantity →
      check_order_execution order_number stock_code orders_at max_retries =
        some { executed := true, executed_quantity := o.executed_quantity,
               executed_price := o.executed_price,
               executed_amount := o.executed_price * (o.executed_quantity : ℚ) }) := by
  refine ⟨?_, ?_, ?_, ?_⟩
  · intro g hg
    exact check_go_agree orders_at g max_retries 0 (fun i _ hi2 => hg i (by omega))
  · intro h
    exact check_go_none orders_at max_retries 0 (fun i _ hi2 => h i (by omega))
  · intro k o rest hk hpre hko hq hlt
    have h := check_go_hit orders_at max_retries 0 k (Nat.zero_le k) (by omega)
      (fun i _ hi2 => hpre i hi2) o rest hko hq
    rw [if_neg (by omega)] at h
    exact h
  · intro k o rest hk hpre hko hq heq
    have h := check_go_hit orders_at max_retries 0 k (Nat.zero_le k) (by omega)
      (fun i _ hi2 => hpre i hi2) o rest hko hq
    rw [if_pos heq] at h
    exact h

/-- Witness for C5: with nothing found on attempt 0 and a 3-of-5 partial
fill at price 100 on attempt 1, three retries end immediately on attempt 1
with `executed = false` and amount 100 × 3. -/
theorem check_order_execution_spec_witness :
    (1 : ℕ) < 3 ∧ (0 : ℕ) < 3 ∧ (3 : ℕ) < 5 ∧
    check_order_execution "0000012345" "005930" c5orders 3 =
      some { executed := false, executed_quantity := 3, executed_price := 100,
             executed_amount := 100 * ((3 : ℕ) : ℚ) } := by
  have hpre : ∀ i, i < 1 → sees_zero_fill (c5orders i) = true := by
    intro i hi
    have h0 : i = 0 := by omega
    subst h0
    rfl
  refine ⟨by norm_num, by norm_num, by norm_num, ?_⟩
  exact (check_order_execution_spec "0000012345" "005930" c5orders 3).2.2.1 1
    { executed_quantity := 3, order_quantity := 5, executed_price := 100 } []
    (by norm_num) hpre rfl (by norm_num) (by norm_num)

lemma request_go_succ (f : ℕ → HttpOutcome) (fuel attempt : ℕ) :
    request_go f (fuel + 1) attempt =
      match f attempt with
      | .response s =>
        if s < 500 then (Except.ok s, [])
        else if attempt < 2 then
          ((request_go f fuel (attempt + 1)).1,
            backoff_delays.getD attempt 0 :: (request_go f fuel (attempt + 1)).2)
        else (Except.error .maxRetriesExceeded, [])
      | .timeout =>
        if attempt < 2 then
          ((request_go f fuel (attempt + 1)).1,
            backoff_delays.getD attempt 0 :: (request_go f fuel (attempt + 1)).2)
        else (Except.error .timeout, [])
      | .transportError =>
        if attempt < 2 then
          ((request_go f fuel (attempt + 1)).1,
            backoff_delays.getD attempt 0 :: (request_go f fuel (attempt + 1)).2)
        else (Except.error .transportError, []) := rfl

lemma request_go_retryable_step (f : ℕ → HttpOutcome) (fuel attempt : ℕ)
    (h : retryable_outcome (f attempt) = true) (ha : attempt < 2) :
    request_go f (fuel + 1) attempt =
      ((request_go f fuel (attempt + 1)).1,
        backoff_delays.getD attempt 0 :: (request_go f fuel (attempt + 1)).2) := by
  cases ho : f attempt with
  | response s =>
    rw [ho] at h
    have hs5 : 500 ≤ s := by simpa [retryable_outcome] using h
    simp only [request_go_succ, ho]
    rw [if_neg (by omega), if_pos ha]
  | timeout =>
    simp only [request_go_succ, ho]
    rw [if_pos ha]
  | transportError =>
    simp only [request_go_succ, ho]
    rw [if_pos ha]

lemma request_go_retryable_last (f : ℕ → HttpOutcome) (fuel : ℕ)
    (h : retryable_outcome (f 2) = true) :
    request_go f (fuel + 1) 2 = (Except.error (error_of_outcome (f 2)), []) := by
  cases ho : f 2 with
  | response s =>
    rw [ho] at h
    have hs5 : 500 ≤ s := by simpa [retryable_outcome] using h
    simp only [request_go_succ, ho, error_of_outcome]
    rw [if_neg (by omega), if_neg (by omega)]
  | timeout =>
    simp only [request_go_succ, ho, error_of_outcome]
    rw [if_neg (by omega)]
  | transportError =>
    simp only [request_go_succ, ho, error_of_outcome]
    rw [if_neg (by omega)]

lemma request_go_agree (f g : ℕ → HttpOutcome) :
    ∀ fuel attempt, (∀ i, attempt ≤ i → i < attempt + fuel → f i = g i) →
    request_go f fuel attempt = request_go g fuel attempt := by
  intro fuel
  induction fuel with
  | zero => intro attempt _; rfl
  | succ n ih =>
    intro attempt h
    have h0 : f attempt = g attempt := h attempt le_rfl (by omega)
    have hrest : ∀ i, attempt + 1 ≤ i → i < attempt + 1 + n → f i = g i := by
      intro i hi1 hi2
      exact h i (by omega) (by omega)
    have hr := ih (attempt + 1) hrest
    simp only [request_go_succ, h0, hr]

/-- C7: `_request_with_retry` makes at most 3 attempts (the result depends
only on the outcomes of attempts 0, 1, 2); any response with status below
500 is returned immediately from the current attempt with no further sleeps;
a 5xx, timeout or transport error retries after sleeping 0.5s before the
second attempt and 1s before the third; after three retryable outcomes the
corresponding error is raised with sleeps [0.5, 1]. -/
theorem request_with_retry_spec (outcome_at : ℕ → HttpOutcome) :
    (∀ s, outcome_at 0 = .response s → s < 500 →
      request_with_retry outcome_at = (Except.ok s, [])) ∧
    (∀ s, retryable_outcome (outcome_at 0) = true →
      outcome_at 1 = .response s → s < 500 →
      request_with_retry outcome_at = (Except.ok s, [0.5])) ∧
    (∀ s, retryable_outcome (outcome_at 0) = true →
      retryable_outcome (outcome_at 1) = true →
      outcome_at 2 = .response s → s < 500 →
      request_with_retry outcome_at = (Except.ok s, [0.5, 1])) ∧
    (retryable_outcome (outcome_at 0) = true →
      retryable_outcome (outcome_at 1) = true →
      retryable_outcome (outcome_at 2) = true →
      request_with_retry outcome_at =
        (Except.error (error_of_outcome (outcome_at 2)), [0.5, 1])) ∧
    (∀ g, outcome_at 0 = g 0 → outcome_at 1 = g 1 → outcome_at 2 = g 2 →
      request_with_retry outcome_at = request_with_retry g) := by
  refine ⟨?_, ?_, ?_, ?_, ?_⟩
  · intro s h0 hs
    have e : request_go outcome_at (2 + 1) 0 = (Except.ok s, []) := by
      simp only [request_go_succ, h0]
      rw [if_pos hs]
    exact e
  · intro s h0 h1 hs
    have e1 : request_go outcome_at 2 1 = (Except.ok s, []) := by
      have e : request_go outcome_at (1 + 1) 1 = (Except.ok s, []) := by
        simp only [request_go_succ, h1]
        rw [if_pos hs]
      exact e
    have e0 : request_go outcome_at (2 + 1) 0 =
        ((request_go outcome_at 2 1).1,
          backoff_delays.getD 0 0 :: (request_go outcome_at 2 1).2) :=
      request_go_retryable_step outcome_at 2 0 h0 (by norm_num)
    show request_go outcome_at (2 + 1) 0 = (Except.ok s, [0.5])
    rw [e0, e1]
    simp [backoff_delays]
  · intro s h0 h1 h2 hs
    have e2 : request_go outcome_at 1 2 = (Except.ok s, []) := by
      have e : request_go outcome_at (0 + 1) 2 = (Except.ok s, []) := by
        simp only [request_go_succ, h2]
        rw [if_pos hs]
      exact e
    have e1 : request_go outcome_at 2 1 =
        ((request_go outcome_at 1 2).1,
          backoff_delays.getD 1 0 :: (request_go outcome_at 1 2).2) :=
      request_go_retryable_step outcome_at 1 1 h1 (by norm_num)
    have e0 : request_go outcome_at (2 + 1) 0 =
        ((request_go outcome_at 2 1).1,
          backoff_delays.getD 0 0 :: (request_go outcome_at 2 1).2) :=
      request_go_retryable_step outcome_at 2 0 h0 (by norm_num)
    show request_go outcome_at (2 + 1) 0 = (Except.ok s, [0.5, 1])
    rw [e0, e1, e2]
    simp [backoff_delays]
    norm_num
  · intro h0 h1 h2
    have e2 : request_go outcome_at 1 2 =
        (Except.error (error_of_outcome (outcome_at 2)), []) :=
      request_go_retryable_last outcome_at 0 h2
    have e1 : request_go outcome_at 2 1 =
        ((request_go outcome_at 1 2).1,
          backoff_delays.getD 1 0 :: (request_go outcome_at 1 2).2) :=
      request_go_retryable_step outcome_at 1 1 h1 (by norm_num)
    have e0 : request_go outcome_at (2 + 1) 0 =
        ((request_go outcome_at 2 1).1,
          backoff_delays.getD 0 0 :: (request_go outcome_at 2 1).2) :=
      request_go_retryable_step outcome_at 2 0 h0 (by norm_num)
    show request_go outcome_at (2 + 1) 0 =
      (Except.error (error_of_outcome (outcome_at 2)), [0.5, 1])
    rw [e0, e1, e2]
    simp [backoff_delays]
    norm_num
  · intro g hg0 hg1 hg2
    refine request_go_agree outcome_at g 3 0 ?_
    intro i _ hi2
    interval_cases i <;> assumption

/-- Witness for C7: with a timeout on the first attempt and a 200 response
on the second, the call returns 200 after a single 0.5s backoff. -/
theorem request_with_retry_spec_witness :
    retryable_outcome (c7outcomes 0) = true ∧ (200 : ℕ) < 500 ∧
    request_with_retry c7outcomes = (Except.ok 200, [0.5]) := by
  refine ⟨rfl, by norm_num, ?_⟩
  exact (request_with_retry_spec c7outcomes).2.1 200 rfl rfl (by norm_num)

/-- C8 counterexample: a market sell for 10 shares of a well-formed stock
code, with a price supplied, is not rejected — `place_order` dispatches the
request (ignoring the price) instead of returning an error. -/
theorem place_order_market_with_price_counterexample :
    (place_order "005930" OrderType.sell_market 10 (some 50000)).isSome = true := by
  decide

/-- C8 amended: `place_order` rejects quantity ≤ 0 and rejects a limit order
whose price is absent or zero (Python falsiness), but a market order with a
price supplied is dispatched, with the order-price field sent empty. -/
theorem place_order_validation_amended (stock_code : String)
    (order_type : OrderType) (quantity : ℤ) (price : Option ℚ) :
    (quantity ≤ 0 → place_order stock_code order_type quantity price = none) ∧
    (is_limit_order order_type = true → price_falsy price = true →
      place_order stock_code order_type quantity price = none) ∧
    (valid_stock_code stock_code = true → 0 < quantity →
      place_order stock_code .buy_market quantity price =
        some { api_id := "kt10000", dmst_stex_tp := "KRX", stk_cd := stock_code,
               ord_qty := toString quantity, ord_uv := "", trde_tp := "3",
               cond_uv := "" }) ∧
    (valid_stock_code stock_code = true → 0 < quantity →
      place_order stock_code .sell_market quantity price =
        some { api_id := "kt10001", dmst_stex_tp := "KRX", stk_cd := stock_code,
               ord_qty := toString quantity, ord_uv := "", trde_tp := "3",
               cond_uv := "" }) := by
  refine ⟨?_, ?_, ?_, ?_⟩
  · intro h
    unfold place_order
    by_cases h1 : valid_stock_code stock_code = true
    · simp [h1, h]
    · simp [h1]
  · intro hl hf
    unfold place_order
    have h3 : (is_limit_order order_type && price_falsy price) = true := by
      simp [hl, hf]
    by_cases h1 : valid_stock_code stock_code = true
    · by_cases h2 : quantity ≤ 0
      · simp [h1, h2]
      · simp [h1, h2, h3]
    · simp [h1]
  · intro hv hq
    have hq' : ¬ quantity ≤ 0 := by omega
    simp [place_order, hv, hq', is_limit_order]
  · intro hv hq
    have hq' : ¬ quantity ≤ 0 := by omega
    simp [place_order, hv, hq', is_limit_order]

/-- Witness for C8 amended: a zero-quantity order and a priceless limit
order are rejected; a market sell with price 50,000 supplied is dispatched
with an empty price field. -/
theorem place_order_validation_amended_witness :
    ((0 : ℤ) ≤ 0) ∧ is_limit_order .sell_limit = true ∧ price_falsy none = true ∧
    valid_stock_code "005930" = true ∧ ((0 : ℤ) < 10) ∧
    place_order "005930" OrderType.buy_market 0 none = none ∧
    place_order "005930" OrderType.sell_limit 10 none = none ∧
    place_order "005930" OrderType.sell_market 10 (some 50000) =
      some { api_id := "kt10001", dmst_stex_tp := "KRX", stk_cd := "005930",
             ord_qty := "10", ord_uv := "", trde_tp := "3", cond_uv := "" } := by
  refine ⟨le_rfl, rfl, rfl, by decide, by norm_num, ?_, ?_, ?_⟩
  · exact (place_order_validation_amended "005930" OrderType.buy_market 0 none).1 le_rfl
  · exact (place_order_validation_amended "005930" OrderType.sell_limit 10 none).2.1 rfl rfl
  · rw [(place_order_validation_amended "005930" OrderType.sell_market 10
      (some 50000)).2.2.2 (by decide) (by norm_num)]
    rfl

/-- C9: for every behaviour of the broker client — including any exception
raised by an inner call (`Except.error`) — `execute_buy_strategy` and
`execute_position_management` never propagate an exception: every path
returns a discriminated outcome (success record, structured failure with
`error_info`, or `none`). -/
theorem execute_strategies_never_raise
    (place_buy : Except String (Option BuyOrderResult))
    (check_exec : ℕ → Except String (Option ExecutionResult))
    (place_sell : Except String (Option SellOrderPlaced))
    (get_position : Except String (Option Position))
    (has_pending : Except String Bool) (holding_days : ℤ)
    (place_market_sell : Except String (Option String))
    (check_exec_once : Except String (Option ExecutionResult))
    (place_limit_sell : ℚ → Option ℚ → Except String (Option SellOrderPlaced)) :
    (∃ o : BuyOutcome,
      execute_buy_strategy place_buy check_exec place_sell = Except.ok o) ∧
    (∃ r : Option SellOutcome,
      execute_position_management get_position has_pending holding_days
        place_market_sell check_exec_once place_limit_sell = Except.ok r) := by
  constructor
  · unfold execute_buy_strategy
    cases h : execute_buy_body place_buy check_exec place_sell with
    | error e => exact ⟨.failure (exception_error_info e), rfl⟩
    | ok r => exact ⟨r, rfl⟩
  · unfold execute_position_management
    cases h : execute_position_body get_position has_pending holding_days
        place_market_sell check_exec_once place_limit_sell with
    | error e => exact ⟨none, rfl⟩
    | ok r => exact ⟨r, rfl⟩

/-- C10: `OrderManager.has_pending_orders` always returns `false` (the
delegated client method does not exist and the `AttributeError` is converted
to `False`), so `get_sell_strategy` invoked on the flag it produces always
takes the bootstrap take-profit branch, and the composed
`execute_position_management` places that bootstrap limit order on every
cycle where a position exists and the order placement succeeds. -/
theorem has_pending_orders_always_false :
    (∀ code, has_pending_orders code = false) ∧
    (∀ pos d code, get_sell_strategy pos d (has_pending_orders code) =
      some { sell_type := .limit, target_price := some (pos.avg_price * 1.03),
             profit_rate := some 0.03, reason := "기본 익절가 설정 (매수가 +3%)" }) ∧
    (∀ pos d ms ce sr code,
      execute_position_management (Except.ok (some pos))
        (Except.ok (has_pending_orders code)) d ms ce
        (fun _ _ => Except.ok (some sr)) =
      Except.ok (some (SellOutcome.order_placed pos.stock_code pos.stock_name
        pos.quantity (some sr.sell_price) "기본 익절가 설정 (매수가 +3%)"))) := by
  refine ⟨fun code => rfl, fun pos d code => rfl, fun pos d ms ce sr code => rfl⟩
